import Mathlib

/-!
Shallow embedding of the contact-extraction and URL-validation core of
`src/app.py` (LinkedIn contact scraper).

The embedded functions are `is_valid_linkedin_profile_url`,
`extract_emails_aggressively` and `extract_phones_aggressively`.  Python
regular-expression matching (`re.findall`, `re.search`, `re.match`) is
modelled by a small backtracking engine over an explicit pattern AST that
covers exactly the constructs used by the source patterns: literal strings,
character classes, greedy class repetition (`+`, `*`, a fixed count, and an
at-least count), greedy optional groups, the word boundary `\b` and the end
anchor `$`.  Character classes (`\d`, `\s`, `\w`, `[A-Za-z]`, ...) are
modelled over their ASCII ranges, which is what every concrete input in the
claims exercises.  Python sets (`list(set(...))`) are modelled as
first-occurrence-preserving deduplication; the claims only use membership
and pairwise-distinctness of the result, which do not depend on the
iteration order of a Python set.
-/

namespace App

abbrev Chars := List Char

/-- Boolean prefix test on character lists (Python `str.startswith`). -/
def isPrefixOfL : Chars → Chars → Bool
  | [], _ => true
  | _ :: _, [] => false
  | c :: cs, x :: xs => if c = x then isPrefixOfL cs xs else false

/-- Boolean substring test (Python `needle in hay`). -/
def containsSubL (needle : Chars) : Chars → Bool
  | [] => isPrefixOfL needle []
  | c :: rest => isPrefixOfL needle (c :: rest) || containsSubL needle rest

/-- ASCII decimal digit, the model of the regex class `\d` and of
Python `str.isdigit` over the characters these patterns can match. -/
def isAsciiDigit (c : Char) : Bool := '0' ≤ c && c ≤ '9'

/-- ASCII letter, the model of the regex class `[A-Za-z]`. -/
def isAsciiAlpha (c : Char) : Bool :=
  ('a' ≤ c && c ≤ 'z') || ('A' ≤ c && c ≤ 'Z')

/-- Word character, the model of the regex class `\w` used by `\b`. -/
def isWordChar (c : Char) : Bool := isAsciiAlpha c || isAsciiDigit c || c = '_'

/-- Whitespace, the model of the regex class `\s` and of `str.strip`. -/
def isSpaceChar (c : Char) : Bool :=
  c = ' ' || c = '\t' || c = '\n' || c = '\r' || c = '\x0b' || c = '\x0c'

/-- Python `str.lower` (ASCII model). -/
def pyLower (s : String) : String := String.mk (s.data.map Char.toLower)

/-- Python `str.strip` with no argument: drop leading and trailing
whitespace. -/
def pyStrip (s : String) : String :=
  String.mk (((s.data.dropWhile isSpaceChar).reverse.dropWhile isSpaceChar).reverse)

/-- Python `str.replace` on character lists: replace every non-overlapping
occurrence of `needle`, scanning left to right.  `fuel` bounds the
recursion; it is instantiated with the length of the scanned list, which
suffices because every step consumes at least one character of it. -/
def replaceFuel (needle repl : Chars) : Nat → Chars → Chars
  | _, [] => []
  | 0, l => l
  | fuel + 1, c :: rest =>
    if needle ≠ [] && isPrefixOfL needle (c :: rest) then
      repl ++ replaceFuel needle repl fuel ((c :: rest).drop needle.length)
    else
      c :: replaceFuel needle repl fuel rest

/-- Python `str.replace`. -/
def pyReplace (s needle repl : String) : String :=
  String.mk (replaceFuel needle.data repl.data s.data.length s.data)

/-- Python `list(set(...))` modelled as first-occurrence-preserving
deduplication, realised with an accumulator of already seen elements. -/
def pyDedupAux {α : Type} [DecidableEq α] (seen : List α) : List α → List α
  | [] => []
  | x :: xs => if x ∈ seen then pyDedupAux seen xs else x :: pyDedupAux (x :: seen) xs

/-- Deduplication keeping the first occurrence of each element. -/
def pyDedup {α : Type} [DecidableEq α] (l : List α) : List α := pyDedupAux [] l

/-- Python `len(set(l))`: the number of distinct elements of a list. -/
def countDistinct (l : Chars) : Nat := (pyDedup l).length

/-- Python slice `l[-n:]`: the last `n` elements (all of them when the
list is shorter than `n`). -/
def lastN (n : Nat) (l : Chars) : Chars := l.drop (l.length - n)

/-! ### The regular-expression engine -/

/-- Pattern AST covering the constructs used by the regular expressions of
`src/app.py`: literal strings, one-character classes, sequencing, greedy
optional groups, greedy repetition of a character class between `lo` and
`hi` times (`hi = none` meaning unbounded), the word boundary `\b` and the
end-of-string anchor `$`. -/
inductive RE where
  | str (s : Chars)
  | cls (f : Char → Bool)
  | seq (a b : RE)
  | opt (a : RE)
  | rep (lo : Nat) (hi : Option Nat) (f : Char → Bool)
  | wordB
  | eos

/-- Sequence a list of patterns. -/
def reSeqList : List RE → RE
  | [] => .str []
  | [r] => r
  | r :: rs => .seq r (reSeqList rs)

/-- Match a literal string against the head of the input, returning the
new previous-character/remaining-input state on success. -/
def strMatch : Chars → Option Char → Chars → Option (Option Char × Chars)
  | [], p, r => some (p, r)
  | _ :: _, _, [] => none
  | c :: cs, _, x :: xs => if c = x then strMatch cs (some x) xs else none

/-- All states reachable by consuming a (possibly empty) run of characters
of class `f`, in increasing order of consumed length. -/
def repStates (f : Char → Bool) : Option Char → Chars → List (Option Char × Chars)
  | p, [] => [(p, [])]
  | p, c :: cs =>
    (p, c :: cs) :: (if f c then repStates f (some c) cs else [])

/-- Backtracking matcher in continuation-passing style.  `p` is the
character immediately before the current position (for `\b`), `r` the
remaining input, and `k` the continuation receiving the state after this
pattern.  Greedy constructs try the longest alternative first, matching
the behaviour of the Python `re` backtracking engine on these patterns. -/
def mtch : RE → Option Char → Chars → (Option Char → Chars → Option Chars) → Option Chars
  | .str s, p, r, k =>
    match strMatch s p r with
    | some (p', r') => k p' r'
    | none => none
  | .cls _, _, [], _ => none
  | .cls f, _, c :: cs, k => if f c then k (some c) cs else none
  | .seq a b, p, r, k => mtch a p r (fun p' r' => mtch b p' r' k)
  | .opt a, p, r, k => (mtch a p r k).orElse (fun _ => k p r)
  | .rep lo hi f, p, r, k =>
    let sts := repStates f p r
    let sts := match hi with
      | some h => sts.take (h + 1)
      | none => sts
    ((sts.drop lo).reverse).findSome? (fun pr => k pr.1 pr.2)
  | .wordB, p, r, k =>
    let lw := match p with | some c => isWordChar c | none => false
    let rw := match r with | c :: _ => isWordChar c | [] => false
    if lw ≠ rw then k p r else none
  | .eos, p, r, k =>
    match r with
    | [] => k p r
    | ['\n'] => k p r
    | _ => none

/-- Try to match `re` anchored at the current position; on success return
the remaining input after the match chosen by the backtracking order. -/
def reMatchAt (re : RE) (p : Option Char) (r : Chars) : Option Chars :=
  mtch re p r (fun _ r' => some r')

/-- Python `re.match(pattern, s)` viewed as a Boolean: a match anchored at
the start of the string. -/
def reMatchB (re : RE) (s : String) : Bool := (reMatchAt re none s.data).isSome

/-- Scan of Python `re.search`: try the pattern anchored at every
position, left to right. -/
def reSearchAux (re : RE) : Option Char → Chars → Bool
  | p, [] => (reMatchAt re p []).isSome
  | p, c :: cs => (reMatchAt re p (c :: cs)).isSome || reSearchAux re (some c) cs

/-- Python `re.search(pattern, s)` viewed as a Boolean. -/
def reSearch (re : RE) (s : String) : Bool := reSearchAux re none s.data

/-- Scan of Python `re.findall`: at each position try an anchored match;
on success record the matched text and continue at the match end (one
position further for an empty match), otherwise advance one character.
`fuel` bounds the recursion and is instantiated with `length + 1`, which
suffices because every step consumes at least one character. -/
def findallAux (re : RE) : Nat → Option Char → Chars → List Chars
  | 0, _, _ => []
  | fuel + 1, p, r =>
    match reMatchAt re p r with
    | some r' =>
      let len := r.length - r'.length
      if len = 0 then
        match r with
        | [] => [[]]
        | c :: cs => [] :: findallAux re fuel (some c) cs
      else
        let m := r.take len
        m :: findallAux re fuel (m.getLastD ' ') r'
    | none =>
      match r with
      | [] => []
      | c :: cs => findallAux re fuel (some c) cs

/-- Python `re.findall(pattern, s)` for the group-free patterns of the
source: the list of non-overlapping matched substrings, left to right. -/
def reFindall (re : RE) (s : String) : List String :=
  (findallAux re (s.data.length + 1) none s.data).map String.mk

/-! ### The character classes and patterns of `src/app.py` -/

/-- Regex class `[6-9]`. -/
def clsHot (c : Char) : Bool := c = '6' || c = '7' || c = '8' || c = '9'

/-- Regex class `[-\s]`. -/
def clsDashSpace (c : Char) : Bool := c = '-' || isSpaceChar c

/-- Regex class `[A-Za-z0-9._%+-]` (email local part). -/
def clsLocal (c : Char) : Bool :=
  isAsciiAlpha c || isAsciiDigit c || c = '.' || c = '_' || c = '%' || c = '+' || c = '-'

/-- Regex class `[A-Za-z0-9.-]` (email domain). -/
def clsDomain (c : Char) : Bool := isAsciiAlpha c || isAsciiDigit c || c = '.' || c = '-'

/-- Regex class `[a-zA-Z0-9\-_%]` (LinkedIn profile slug). -/
def clsSlug (c : Char) : Bool := isAsciiAlpha c || isAsciiDigit c || c = '-' || c = '_' || c = '%'

/-- A literal letter under `re.IGNORECASE` (used for the `at` inside the
obfuscation token `[at]`; the email patterns are compiled with
`re.IGNORECASE` in the source). -/
def ciChar (c : Char) : RE := .cls (fun x => x.toLower = c)

/-- Pattern `(?:\+91[-\s]?)?[6-9]\d{4}[-\s]?\d{5}`. -/
def phoneRE1 : RE := reSeqList
  [.opt (reSeqList [.str ['+', '9', '1'], .rep 0 (some 1) clsDashSpace]),
   .cls clsHot, .rep 4 (some 4) isAsciiDigit, .rep 0 (some 1) clsDashSpace,
   .rep 5 (some 5) isAsciiDigit]

/-- Pattern `\+91[-\s]?[6-9]\d{9}`. -/
def phoneRE2 : RE := reSeqList
  [.str ['+', '9', '1'], .rep 0 (some 1) clsDashSpace, .cls clsHot,
   .rep 9 (some 9) isAsciiDigit]

/-- Pattern `(?:\+91[-\s]?)?[6-9]\d[-\s]?\d{4}[-\s]?\d{4}`. -/
def phoneRE3 : RE := reSeqList
  [.opt (reSeqList [.str ['+', '9', '1'], .rep 0 (some 1) clsDashSpace]),
   .cls clsHot, .cls isAsciiDigit, .rep 0 (some 1) clsDashSpace,
   .rep 4 (some 4) isAsciiDigit, .rep 0 (some 1) clsDashSpace,
   .rep 4 (some 4) isAsciiDigit]

/-- Pattern `[6-9]\d{2}[-\s]?\d{3}[-\s]?\d{4}`. -/
def phoneRE4 : RE := reSeqList
  [.cls clsHot, .rep 2 (some 2) isAsciiDigit, .rep 0 (some 1) clsDashSpace,
   .rep 3 (some 3) isAsciiDigit, .rep 0 (some 1) clsDashSpace,
   .rep 4 (some 4) isAsciiDigit]

/-- Pattern `[6-9]\d{2}\.\d{3}\.\d{4}`. -/
def phoneRE5 : RE := reSeqList
  [.cls clsHot, .rep 2 (some 2) isAsciiDigit, .str ['.'],
   .rep 3 (some 3) isAsciiDigit, .str ['.'], .rep 4 (some 4) isAsciiDigit]

/-- Pattern `\b[6-9]\d{9}\b`. -/
def phoneRE6 : RE := reSeqList
  [.wordB, .cls clsHot, .rep 9 (some 9) isAsciiDigit, .wordB]

/-- The six phone patterns of `extract_phones_aggressively`, in source
order. -/
def phonePatterns : List RE :=
  [phoneRE1, phoneRE2, phoneRE3, phoneRE4, phoneRE5, phoneRE6]

/-- Pattern `\b[A-Za-z0-9._%+-]+@[A-Za-z0-9.-]+\.[A-Za-z]{2,}\b`. -/
def emailRE1 : RE := reSeqList
  [.wordB, .rep 1 none clsLocal, .str ['@'], .rep 1 none clsDomain,
   .str ['.'], .rep 2 none isAsciiAlpha, .wordB]

/-- Pattern `[A-Za-z0-9._%+-]+\s*@\s*[A-Za-z0-9.-]+\.[A-Za-z]{2,}`. -/
def emailRE2 : RE := reSeqList
  [.rep 1 none clsLocal, .rep 0 none isSpaceChar, .str ['@'],
   .rep 0 none isSpaceChar, .rep 1 none clsDomain, .str ['.'],
   .rep 2 none isAsciiAlpha]

/-- Pattern `[A-Za-z0-9._%+-]+\[at\][A-Za-z0-9.-]+\.[A-Za-z]{2,}`. -/
def emailRE3 : RE := reSeqList
  [.rep 1 none clsLocal, .str ['['], ciChar 'a', ciChar 't', .str [']'],
   .rep 1 none clsDomain, .str ['.'], .rep 2 none isAsciiAlpha]

/-- Pattern `[A-Za-z0-9._%+-]+\s*\[at\]\s*[A-Za-z0-9.-]+\.[A-Za-z]{2,}`. -/
def emailRE4 : RE := reSeqList
  [.rep 1 none clsLocal, .rep 0 none isSpaceChar, .str ['['], ciChar 'a',
   ciChar 't', .str [']'], .rep 0 none isSpaceChar, .rep 1 none clsDomain,
   .str ['.'], .rep 2 none isAsciiAlpha]

/-- The four email patterns of `extract_emails_aggressively`, in source
order. -/
def emailPatterns : List RE := [emailRE1, emailRE2, emailRE3, emailRE4]

/-- Strict re-validation pattern
`^[a-zA-Z0-9._%+-]+@[a-zA-Z0-9.-]+\.[a-zA-Z]{2,}$`, applied with
`re.match` (anchored at the start; the `$` is part of the pattern). -/
def strictEmailRE : RE := reSeqList
  [.rep 1 none clsLocal, .str ['@'], .rep 1 none clsDomain, .str ['.'],
   .rep 2 none isAsciiAlpha, .eos]

/-- The literal profile-path segment required by the shape pattern. -/
def linkSeg : Chars := "linkedin.com/in/".data

/-- Tail of the shape pattern after the literal segment:
`[a-zA-Z0-9\-_%]+/?$`. -/
def profileTail : RE := reSeqList [.rep 1 none clsSlug, .opt (.str ['/']), .eos]

/-- Shape pattern `linkedin\.com/in/[a-zA-Z0-9\-_%]+/?$`, applied with
`re.search` against the original (not lowercased) URL. -/
def profileRE : RE := .seq (.str linkSeg) profileTail

/-! ### The embedded functions of `src/app.py` -/

/-- The `garbage_patterns` list of `is_valid_linkedin_profile_url`. -/
def garbage_patterns : List String :=
  ["/company/", "/jobs/", "/pulse/", "/posts/", "/groups/",
   "/events/", "/school/", "/showcase/", "dir/", "/topic/",
   "google.com", "facebook.com", "twitter.com", "redirect"]

/-- Embedding of `is_valid_linkedin_profile_url` (src/app.py, lines
70-95).  The early `return False` branches of the source become the
conjuncts, in source order: non-empty URL, case-insensitive containment of
`linkedin.com/in/`, no garbage pattern in the lowercased URL, and the
case-sensitive shape search. -/
def is_valid_linkedin_profile_url (url : String) : Bool :=
  !(url = "") &&
  containsSubL linkSeg (pyLower url).data &&
  !(garbage_patterns.any (fun g => containsSubL g.data (pyLower url).data)) &&
  reSearch profileRE url

/-- The `blocked_domains` list of `extract_emails_aggressively`. -/
def blocked_domains : List String :=
  ["licdn.com", "linkedin.com", "static", "cdn", "img", "facebook.com",
   "twitter.com", "instagram.com", "youtube.com", "example.com", "test.com",
   "localhost", "127.0.0.1", "noreply", "no-reply", "donotreply", "sentry.io",
   "gravatar.com", "googleusercontent.com", "amazonaws.com"]

/-- The placeholder keywords filtered by `extract_emails_aggressively`. -/
def placeholderWords : List String := ["example", "test", "sample", "dummy", "fake"]

/-- Cleanup step of `extract_emails_aggressively`:
`email.replace("[at]", "@").replace(" ", "")`. -/
def cleanupEmail (e : String) : String := pyReplace (pyReplace e "[at]" "@") " " ""

/-- The local part used by the letters check: `email.split('@')[0]`. -/
def localPart (e : String) : String := String.mk (e.data.takeWhile (fun c => c ≠ '@'))

/-- Filter of `extract_emails_aggressively` (src/app.py, lines 126-150):
the `continue` branches of the loop become the conjuncts, in source order:
no blocked domain, no placeholder keyword, length in `[5, 50]`, strict
re-validation, and at least one letter in the local part. -/
def emailOk (email : String) : Bool :=
  !(blocked_domains.any (fun d => containsSubL d.data (pyLower email).data)) &&
  !(placeholderWords.any (fun w => containsSubL w.data (pyLower email).data)) &&
  !(decide (email.length < 5) || decide (email.length > 50)) &&
  reMatchB strictEmailRE email &&
  reSearch (.cls isAsciiAlpha) (localPart email)

/-- Embedding of `extract_emails_aggressively` (src/app.py, lines
97-152): run the four patterns, clean the candidates, filter, and
deduplicate (`list(set(...))`). -/
def extract_emails_aggressively (text : String) : List String :=
  let all_emails := emailPatterns.flatMap (fun p => reFindall p text)
  let cleaned := all_emails.map cleanupEmail
  let valid_emails := cleaned.filter emailOk
  pyDedup valid_emails

/-- Digit string of a candidate: `re.sub(r'\D', '', phone)`. -/
def digitsOf (s : String) : Chars := s.data.filter isAsciiDigit

/-- Acceptance condition of the validation loop of
`extract_phones_aggressively`: exactly 10 digits starting 6-9, or exactly
12 digits starting `91` with the third digit 6-9. -/
def phoneValid (d : Chars) : Bool :=
  (decide (d.length = 10) && clsHot (d.headD ' ')) ||
  (decide (d.length = 12) && isPrefixOfL ['9', '1'] d && clsHot (d.getD 2 ' '))

/-- The `fake_patterns` list of `extract_phones_aggressively`; each is a
literal digit string, so `re.search` against the digit string is a
substring test. -/
def fake_patterns : List String :=
  ["1234567890", "9876543210", "0000000000", "1111111111",
   "2222222222", "3333333333", "4444444444", "5555555555",
   "6666666666", "7777777777", "8888888888", "9999999999"]

/-- Final filter of `extract_phones_aggressively` (src/app.py, lines
182-199): no fake pattern occurs in the digit string, and the last 10
digits contain at least 4 distinct values. -/
def phoneKeep (phone : String) : Bool :=
  !(fake_patterns.any (fun f => containsSubL f.data (digitsOf phone))) &&
  decide (4 ≤ countDistinct (lastN 10 (digitsOf phone)))

/-- Embedding of `extract_phones_aggressively` (src/app.py, lines
154-201): run the six patterns, keep the candidates whose digit string is
a valid Indian mobile (appending `phone.strip()`), deduplicate
(`list(set(...))`), and apply the fake/entropy filter. -/
def extract_phones_aggressively (text : String) : List String :=
  let all_phones := phonePatterns.flatMap (fun p => reFindall p text)
  let valid_phones := all_phones.filterMap
    (fun phone => if phoneValid (digitsOf phone) then some (pyStrip phone) else none)
  (pyDedup valid_phones).filter phoneKeep

/-! ### Python dynamic-typing layer

The public-interface claims quantify over non-string inputs as well, so the
functions are additionally wrapped over a small model of Python values.
`re.findall` (and `re.sub`) raise `TypeError` when handed a non-string
(including `None` and `bytes` given a string pattern), and `url.lower()`
raises `AttributeError` on an object without that attribute; `if not url`
treats `None`, the empty string and `0` as falsy. -/

inductive PyVal where
  | none
  | str (s : String)
  | int (n : Int)

inductive PyErr where
  | typeError
  | attributeError
deriving DecidableEq

/-- `is_valid_linkedin_profile_url` at the dynamic interface: falsy inputs
are caught by the leading `if not url: return False`; a truthy non-string
reaches `url.lower()` and raises. -/
def is_valid_profile_url_py : PyVal → Except PyErr Bool
  | .none => .ok false
  | .str s => .ok (is_valid_linkedin_profile_url s)
  | .int n => if n = 0 then .ok false else .error .attributeError

/-- `extract_emails_aggressively` at the dynamic interface: the first
statement executed is `re.findall(pattern, text)`, which raises
`TypeError` on every non-string input. -/
def extract_emails_py : PyVal → Except PyErr (List String)
  | .str s => .ok (extract_emails_aggressively s)
  | _ => .error .typeError

/-- `extract_phones_aggressively` at the dynamic interface, as for
emails. -/
def extract_phones_py : PyVal → Except PyErr (List String)
  | .str s => .ok (extract_phones_aggressively s)
  | _ => .error .typeError

/-! ### Helper lemmas -/

theorem mem_pyDedupAux {α : Type} [DecidableEq α] (a : α) :
    ∀ (l seen : List α), a ∈ pyDedupAux seen l ↔ a ∈ l ∧ a ∉ seen := by
  intro l
  induction l with
  | nil => intro seen; simp [pyDedupAux]
  | cons x xs ih =>
    intro seen
    by_cases hx : x ∈ seen
    · rw [pyDedupAux, if_pos hx, ih]
      simp only [List.mem_cons]
      constructor
      · rintro ⟨h1, h2⟩; exact ⟨Or.inr h1, h2⟩
      · rintro ⟨h1 | h1, h2⟩
        · exact absurd (h1 ▸ hx) h2
        · exact ⟨h1, h2⟩
    · rw [pyDedupAux, if_neg hx]
      simp only [List.mem_cons, ih, List.mem_cons]
      constructor
      · rintro (rfl | ⟨h1, h2⟩)
        · exact ⟨Or.inl rfl, hx⟩
        · exact ⟨Or.inr h1, fun hs => h2 (Or.inr hs)⟩
      · rintro ⟨rfl | h1, h2⟩
        · exact Or.inl rfl
        · by_cases hax : a = x
          · exact Or.inl hax
          · exact Or.inr ⟨h1, fun hs => (hs.elim hax h2 : False)⟩

theorem mem_pyDedup {α : Type} [DecidableEq α] (a : α) (l : List α) :
    a ∈ pyDedup l ↔ a ∈ l := by
  rw [pyDedup, mem_pyDedupAux]
  simp

theorem pyDedupAux_nodup {α : Type} [DecidableEq α] :
    ∀ (l seen : List α), (pyDedupAux seen l).Nodup := by
  intro l
  induction l with
  | nil => intro seen; simp [pyDedupAux]
  | cons x xs ih =>
    intro seen
    by_cases hx : x ∈ seen
    · rw [pyDedupAux, if_pos hx]; exact ih seen
    · rw [pyDedupAux, if_neg hx]
      refine List.nodup_cons.mpr ⟨fun hmem => ?_, ih _⟩
      exact ((mem_pyDedupAux x xs (x :: seen)).mp hmem).2 (List.mem_cons_self x seen)

theorem pyDedup_nodup {α : Type} [DecidableEq α] (l : List α) :
    (pyDedup l).Nodup := pyDedupAux_nodup l []

theorem filter_digit_dropWhile_space :
    ∀ l : Chars, (l.dropWhile isSpaceChar).filter isAsciiDigit = l.filter isAsciiDigit := by
  intro l
  induction l with
  | nil => rfl
  | cons c cs ih =>
    by_cases hc : isSpaceChar c = true
    · have hd : isAsciiDigit c = false := by
        have hc2 := hc
        revert hc2
        simp only [isSpaceChar, Bool.or_eq_true, decide_eq_true_eq]
        rintro (((((rfl | rfl) | rfl) | rfl) | rfl) | rfl) <;> rfl
      rw [List.dropWhile_cons_of_pos hc, ih, List.filter_cons_of_neg]
      simp [hd]
    · rw [List.dropWhile_cons_of_neg hc]

theorem filter_rev (p : Char → Bool) :
    ∀ l : Chars, l.reverse.filter p = (l.filter p).reverse := by
  intro l
  induction l with
  | nil => rfl
  | cons c cs ih =>
    by_cases hc : p c = true
    · simp [List.filter_append, ih, hc]
    · simp [List.filter_append, ih, hc]

theorem digitsOf_pyStrip (s : String) : digitsOf (pyStrip s) = digitsOf s := by
  show (((s.data.dropWhile isSpaceChar).reverse.dropWhile isSpaceChar).reverse).filter isAsciiDigit
      = s.data.filter isAsciiDigit
  rw [filter_rev, filter_digit_dropWhile_space, filter_rev, List.reverse_reverse,
    filter_digit_dropWhile_space]

theorem strMatch_isPrefix :
    ∀ (s : Chars) (p : Option Char) (r : Chars) (out : Option Char × Chars),
      strMatch s p r = some out → isPrefixOfL s r = true := by
  intro s
  induction s with
  | nil => intro p r out _; rfl
  | cons c cs ih =>
    intro p r out h
    cases r with
    | nil => simp [strMatch] at h
    | cons x xs =>
      by_cases hcx : c = x
      · rw [strMatch, if_pos hcx] at h
        rw [isPrefixOfL, if_pos hcx]
        exact ih (some x) xs out h
      · rw [strMatch, if_neg hcx] at h
        cases h

theorem reMatchAt_seq_str (s : Chars) (b : RE) (p : Option Char) (r : Chars)
    (out : Chars) (h : reMatchAt (RE.seq (RE.str s) b) p r = some out) :
    isPrefixOfL s r = true := by
  rw [reMatchAt] at h
  rw [mtch] at h
  rw [mtch] at h
  cases hsm : strMatch s p r with
  | none => rw [hsm] at h; cases h
  | some pr => exact strMatch_isPrefix s p r pr hsm

theorem reSearchAux_seq_str (s : Chars) (b : RE) :
    ∀ (r : Chars) (p : Option Char),
      reSearchAux (RE.seq (RE.str s) b) p r = true → containsSubL s r = true := by
  intro r
  induction r with
  | nil =>
    intro p h
    rw [reSearchAux] at h
    cases hm : reMatchAt (RE.seq (RE.str s) b) p [] with
    | none => rw [hm] at h; cases h
    | some out =>
      show isPrefixOfL s [] = true
      exact reMatchAt_seq_str s b p [] out hm
  | cons c cs ih =>
    intro p h
    rw [reSearchAux] at h
    rw [containsSubL]
    rcases Bool.or_eq_true_iff.mp h with h1 | h2
    · cases hm : reMatchAt (RE.seq (RE.str s) b) p (c :: cs) with
      | none => rw [hm] at h1; cases h1
      | some out =>
        rw [reMatchAt_seq_str s b p (c :: cs) out hm]
        rfl
    · rw [ih (some c) h2, Bool.or_true]

theorem reSearch_seq_str (s : Chars) (b : RE) (str : String)
    (h : reSearch (RE.seq (RE.str s) b) str = true) :
    containsSubL s str.data = true :=
  reSearchAux_seq_str s b str.data none h

/-- Every member of the phone-extraction output comes from a candidate
whose digit string passed the validity test, is that candidate stripped of
surrounding whitespace, and itself passed the fake/entropy filter. -/
theorem mem_extract_phones {text p : String}
    (h : p ∈ extract_phones_aggressively text) :
    (∃ ph : String, phoneValid (digitsOf ph) = true ∧ p = pyStrip ph) ∧
      phoneKeep p = true := by
  rw [extract_phones_aggressively] at h
  have h1 := List.mem_filter.mp h
  refine ⟨?_, h1.2⟩
  have h2 := (mem_pyDedup p _).mp h1.1
  rcases List.mem_filterMap.mp h2 with ⟨ph, _, hph⟩
  by_cases hv : phoneValid (digitsOf ph) = true
  · rw [if_pos hv] at hph
    exact ⟨ph, hv, (Option.some.injEq _ _ ▸ hph : pyStrip ph = p).symm⟩
  · rw [if_neg hv] at hph
    cases hph

/-- Every member of the email-extraction output passed the email filter. -/
theorem mem_extract_emails {text e : String}
    (h : e ∈ extract_emails_aggressively text) : emailOk e = true := by
  rw [extract_emails_aggressively] at h
  have h1 := (mem_pyDedup e _).mp h
  exact (List.mem_filter.mp h1).2

theorem eq_false_of_ne_true {b : Bool} (h : ¬ b = true) : b = false := by
  cases b
  · rfl
  · exact absurd rfl h

/-! ### Claim theorems -/

/-- C1: every entry returned by phone extraction, after stripping all
non-digit characters, is either exactly 10 digits long with first digit in
6-9, or exactly 12 digits long starting with `91` with the digit after
`91` in 6-9. -/
theorem C1_phone_digit_shape (text p : String)
    (h : p ∈ extract_phones_aggressively text) :
    ((digitsOf p).length = 10 ∧ clsHot ((digitsOf p).headD ' ') = true) ∨
    ((digitsOf p).length = 12 ∧ isPrefixOfL ['9', '1'] (digitsOf p) = true ∧
      clsHot ((digitsOf p).getD 2 ' ') = true) := by
  obtain ⟨⟨ph, hv, rfl⟩, _⟩ := mem_extract_phones h
  rw [digitsOf_pyStrip]
  simp only [phoneValid, Bool.or_eq_true, Bool.and_eq_true, decide_eq_true_eq] at hv
  tauto

/-- Witness for C1 at a concrete input. -/
theorem C1_phone_digit_shape_witness :
    "9123456780" ∈ extract_phones_aggressively "call 9123456780 now" ∧
    (((digitsOf "9123456780").length = 10 ∧
        clsHot ((digitsOf "9123456780").headD ' ') = true) ∨
      ((digitsOf "9123456780").length = 12 ∧
        isPrefixOfL ['9', '1'] (digitsOf "9123456780") = true ∧
        clsHot ((digitsOf "9123456780").getD 2 ' ') = true)) :=
  ⟨by decide, C1_phone_digit_shape "call 9123456780 now" "9123456780" (by decide)⟩

/-- C2 fails on the code: the validator performs no redirect-unwrapping,
and a Google-wrapped profile URL is rejected (the garbage-pattern check
sees `google.com`), so the claimed example returns `false`, not `true`. -/
theorem C2_counterexample :
    is_valid_linkedin_profile_url
      "https://www.google.com/url?q=https://www.linkedin.com/in/jane-doe" = false := by
  decide

/-- C2 amended: `is_valid_linkedin_profile_url` does not decode
search-engine redirect wrappers; every URL containing `google.com`
(case-insensitively) is rejected outright. -/
theorem C2_amended_google_rejected (url : String)
    (h : containsSubL ("google.com".data) (pyLower url).data = true) :
    is_valid_linkedin_profile_url url = false := by
  have hg : garbage_patterns.any (fun g => containsSubL g.data (pyLower url).data) = true := by
    refine List.any_eq_true.mpr ⟨"google.com", ?_, h⟩
    decide
  rw [is_valid_linkedin_profile_url, hg]
  simp

/-- Witness for the amended C2 at the concrete URL of the claim. -/
theorem C2_amended_google_rejected_witness :
    containsSubL ("google.com".data)
        (pyLower "https://www.google.com/url?q=https://www.linkedin.com/in/jane-doe").data
      = true ∧
    is_valid_linkedin_profile_url
        "https://www.google.com/url?q=https://www.linkedin.com/in/jane-doe" = false :=
  ⟨by decide, C2_amended_google_rejected _ (by decide)⟩

/-- C3 fails on the code: deduplication is `list(set(...))` on the exact
string, so the same address in two casings survives twice; both casings
appear in the output and they are equal under case-insensitive
comparison. -/
theorem C3_counterexample :
    extract_emails_aggressively "mail John@Gmail.com john@gmail.com end"
      = ["John@Gmail.com", "john@gmail.com"] ∧
    pyLower "John@Gmail.com" = pyLower "john@gmail.com" ∧
    "John@Gmail.com" ≠ "john@gmail.com" := by
  decide

/-- C3 amended: email deduplication is on the exact string (case
sensitive): the returned list never contains two identical entries, but
two entries differing only in letter case may both appear. -/
theorem C3_amended_exact_dedup (text : String) :
    (extract_emails_aggressively text).Nodup :=
  pyDedup_nodup _

/-- C4: no returned phone contains a fake pattern in its digit string and
every returned phone has at least 4 distinct digits among its last 10;
the three concrete inputs of the claim are all rejected. -/
theorem C4_fake_and_entropy_filter :
    (∀ text p : String, p ∈ extract_phones_aggressively text →
      (∀ f ∈ fake_patterns, containsSubL f.data (digitsOf p) = false) ∧
        4 ≤ countDistinct (lastN 10 (digitsOf p))) ∧
    extract_phones_aggressively "call 9876543210 now" = [] ∧
    extract_phones_aggressively "call 6666666666 now" = [] ∧
    extract_phones_aggressively "num 6768686766 here" = [] := by
  refine ⟨?_, by decide, by decide, by decide⟩
  intro text p h
  obtain ⟨_, hk⟩ := mem_extract_phones h
  rw [phoneKeep, Bool.and_eq_true] at hk
  obtain ⟨hf, he⟩ := hk
  rw [Bool.not_eq_true'] at hf
  refine ⟨fun f hfmem => ?_, of_decide_eq_true he⟩
  exact eq_false_of_ne_true (List.any_eq_false.mp hf f hfmem)

/-- Witness for the universally quantified part of C4 at a concrete
input. -/
theorem C4_fake_and_entropy_filter_witness :
    "9123456780" ∈ extract_phones_aggressively "call 9123456780 now" ∧
    ((∀ f ∈ fake_patterns, containsSubL f.data (digitsOf "9123456780") = false) ∧
      4 ≤ countDistinct (lastN 10 (digitsOf "9123456780"))) :=
  ⟨by decide,
    C4_fake_and_entropy_filter.1 "call 9123456780 now" "9123456780" (by decide)⟩

/-- C5 fails on the code: deduplication is on the exact matched string,
not on the normalized digit string, so the same mobile number in
`+91`-prefixed and bare form yields two output entries whose digit
strings denote the same 10-digit number. -/
theorem C5_counterexample :
    extract_phones_aggressively "phone +91 9876512345 or 9876512345"
      = ["+91 9876512345", "9876512345"] ∧
    lastN 10 (digitsOf "+91 9876512345") = digitsOf "9876512345" ∧
    "+91 9876512345" ≠ "9876512345" := by
  decide

/-- C5 amended: phone deduplication is on the exact matched string after
stripping, so the returned list never contains two identical entries, but
prefixed and bare forms of the same number both appear. -/
theorem C5_amended_exact_dedup (text : String) :
    (extract_phones_aggressively text).Nodup :=
  (pyDedup_nodup _).filter phoneKeep

/-- C6 fails on the code: no pattern of `extract_emails_aggressively`
handles a literal `[dot]` token, so the fully obfuscated input of the
claim yields the empty set instead of `john@yahoo.com`. -/
theorem C6_counterexample :
    extract_emails_aggressively "email: john [at] yahoo [dot] com" = [] := by
  decide

/-- C6 amended: the `[at]` obfuscation (with a literal dot in the domain)
is decoded and recombined into canonical form, but the fully obfuscated
`[at]` plus `[dot]` form is not recognized and yields the empty set. -/
theorem C6_amended_at_token_only :
    extract_emails_aggressively "email: john [at] yahoo.com" = ["john@yahoo.com"] ∧
    extract_emails_aggressively "email: john [at] yahoo [dot] com" = [] := by
  decide

/-- C7: every member of the email-extraction output has no blocked domain
and no placeholder keyword as a case-insensitive substring, has length
between 5 and 50, matches the strict address syntax, and has at least one
letter in its local part. -/
theorem C7_email_invariant (text e : String)
    (h : e ∈ extract_emails_aggressively text) :
    (∀ d ∈ blocked_domains, containsSubL d.data (pyLower e).data = false) ∧
    (∀ w ∈ placeholderWords, containsSubL w.data (pyLower e).data = false) ∧
    5 ≤ e.length ∧ e.length ≤ 50 ∧
    reMatchB strictEmailRE e = true ∧
    reSearch (RE.cls isAsciiAlpha) (localPart e) = true := by
  have hk := mem_extract_emails h
  rw [emailOk] at hk
  simp only [Bool.and_eq_true] at hk
  obtain ⟨⟨⟨⟨hA, hB⟩, hC⟩, hD⟩, hE⟩ := hk
  rw [Bool.not_eq_true'] at hA hB hC
  rw [Bool.or_eq_false_iff] at hC
  obtain ⟨hC1, hC2⟩ := hC
  refine ⟨fun d hd => ?_, fun w hw => ?_, ?_, ?_, hD, hE⟩
  · exact eq_false_of_ne_true (List.any_eq_false.mp hA d hd)
  · exact eq_false_of_ne_true (List.any_eq_false.mp hB w hw)
  · exact Nat.not_lt.mp (of_decide_eq_false hC1)
  · exact Nat.not_lt.mp (of_decide_eq_false hC2)

/-- Witness for C7 at a concrete input. -/
theorem C7_email_invariant_witness :
    "jane.doe123@gmail.com"
        ∈ extract_emails_aggressively "Reach me at jane.doe123@gmail.com for details" ∧
    ((∀ d ∈ blocked_domains,
        containsSubL d.data (pyLower "jane.doe123@gmail.com").data = false) ∧
      (∀ w ∈ placeholderWords,
        containsSubL w.data (pyLower "jane.doe123@gmail.com").data = false) ∧
      5 ≤ ("jane.doe123@gmail.com" : String).length ∧
      ("jane.doe123@gmail.com" : String).length ≤ 50 ∧
      reMatchB strictEmailRE "jane.doe123@gmail.com" = true ∧
      reSearch (RE.cls isAsciiAlpha) (localPart "jane.doe123@gmail.com") = true) :=
  ⟨by decide,
    C7_email_invariant "Reach me at jane.doe123@gmail.com for details"
      "jane.doe123@gmail.com" (by decide)⟩

/-- C8 fails on the code: a `None`-equivalent input reaches
`re.findall`, which raises `TypeError`; the extractors throw instead of
returning an empty set. -/
theorem C8_counterexample :
    extract_emails_py PyVal.none = Except.error PyErr.typeError ∧
    extract_phones_py PyVal.none = Except.error PyErr.typeError :=
  ⟨rfl, rfl⟩

/-- C8 amended: for every string input (including the empty string) both
extractors return a result without raising, and the URL validator returns
`false` on empty and `None` input; only non-string input to the
extractors raises. -/
theorem C8_amended_total_on_strings :
    (∀ s : String, extract_emails_py (PyVal.str s)
        = Except.ok (extract_emails_aggressively s)) ∧
    (∀ s : String, extract_phones_py (PyVal.str s)
        = Except.ok (extract_phones_aggressively s)) ∧
    (∀ s : String, is_valid_profile_url_py (PyVal.str s)
        = Except.ok (is_valid_linkedin_profile_url s)) ∧
    is_valid_profile_url_py PyVal.none = Except.ok false ∧
    extract_emails_aggressively "" = [] ∧
    extract_phones_aggressively "" = [] ∧
    is_valid_linkedin_profile_url "" = false :=
  ⟨fun _ => rfl, fun _ => rfl, fun _ => rfl, rfl, by decide, by decide, by decide⟩

/-- C9: the containment and exclusion checks of the URL validator run on
a lowercased copy, but the final shape pattern is matched case-sensitively
and requires the literal lowercase `linkedin.com/in/`; a URL whose profile
segment appears only in upper or mixed case is therefore rejected. -/
theorem C9_case_sensitive_shape (url : String)
    (_hlo : containsSubL linkSeg (pyLower url).data = true)
    (hcs : containsSubL linkSeg url.data = false) :
    is_valid_linkedin_profile_url url = false := by
  have hs : reSearch profileRE url = false := by
    cases hr : reSearch profileRE url
    · rfl
    · have := reSearch_seq_str linkSeg profileTail url hr
      rw [hcs] at this
      cases this
  rw [is_valid_linkedin_profile_url, hs]
  simp

/-- Witness for C9 at the mixed-case URL of the claim. -/
theorem C9_case_sensitive_shape_witness :
    (containsSubL linkSeg (pyLower "https://www.LinkedIn.com/IN/jane-doe").data = true ∧
      containsSubL linkSeg "https://www.LinkedIn.com/IN/jane-doe".data = false) ∧
    is_valid_linkedin_profile_url "https://www.LinkedIn.com/IN/jane-doe" = false :=
  ⟨⟨by decide, by decide⟩,
    C9_case_sensitive_shape "https://www.LinkedIn.com/IN/jane-doe" (by decide) (by decide)⟩

/-- C10: an input that is a single run of 14 digits, not itself a 10- or
12-digit number, still yields a non-empty phone-extraction result: the
anchor-free patterns match a 10-digit substring inside the run. -/
theorem C10_embedded_digit_run :
    "98761234567890".data.all isAsciiDigit = true ∧
    ("98761234567890" : String).length = 14 ∧
    extract_phones_aggressively "98761234567890" = ["9876123456"] := by
  decide

end App
